import Mathlib

/-!
Verification of `startmenu_sync_to_gdrive.py`: a shallow embedding of the
event-filter / debounce-gate / sync-executor pipeline, with theorems settling
the specification's claims about it.

Timestamps (Python `time.time()` floats) are modelled as rationals.
Subprocess invocations and log records are made observable as explicit traces.
-/

namespace StartmenuSync

/-- Timestamps, as returned by `time.time()`. -/
abbrev Time := ℚ

/-- The two external subprocesses the program can spawn (`rclone sync`,
`rclone dedupe`). -/
inductive Proc
  | sync
  | dedupe
deriving DecidableEq, Repr

/-- Abstract tags for the log records the program emits, one per `logging.*`
call site relevant to outcomes. -/
inductive LogMsg
  | sourceMissing
  | syncStart
  | syncDone
  | syncFailed
  | dedupeStart
  | dedupeDone
  | dedupeFailed
deriving DecidableEq, Repr

/-- The environment of one sync attempt: whether `os.path.exists(source_path)`
holds and the exit statuses the two subprocesses would return. -/
structure SyncEnv where
  source_exists : Bool
  sync_exit : Nat
  dedupe_exit : Nat
deriving DecidableEq, Repr

/-- Observable outcome of `sync_to_gdrive` / `dedupe_gdrive`: the returned
boolean, the subprocesses spawned (in order) and the log records emitted. -/
structure SyncOutcome where
  success : Bool
  procs : List Proc
  logs : List LogMsg
deriving DecidableEq, Repr

/-- `dedupe_gdrive()` (lines 39-69): runs `rclone dedupe` with `check=True`;
returns `True` on exit 0, catches `CalledProcessError` and returns `False`
otherwise. -/
def dedupe_gdrive (env : SyncEnv) : SyncOutcome :=
  if env.dedupe_exit = 0 then
    { success := true, procs := [Proc.dedupe],
      logs := [LogMsg.dedupeStart, LogMsg.dedupeDone] }
  else
    { success := false, procs := [Proc.dedupe],
      logs := [LogMsg.dedupeStart, LogMsg.dedupeFailed] }

/-- `sync_to_gdrive()` (lines 72-119): returns `False` with no subprocess if
the source path is missing; otherwise runs `rclone sync` with `check=True`.
On exit 0 it calls `dedupe_gdrive()` (discarding its result) and returns
`True`; on `CalledProcessError` it returns `False` without deduping. -/
def sync_to_gdrive (env : SyncEnv) : SyncOutcome :=
  if env.source_exists = false then
    { success := false, procs := [], logs := [LogMsg.sourceMissing] }
  else if env.sync_exit = 0 then
    let d := dedupe_gdrive env
    { success := true, procs := Proc.sync :: d.procs,
      logs := [LogMsg.syncStart, LogMsg.syncDone] ++ d.logs }
  else
    { success := false, procs := [Proc.sync],
      logs := [LogMsg.syncStart, LogMsg.syncFailed] }

/-- The mutable state of `FileHandler` (lines 122-126). -/
structure FileHandler where
  last_sync_time : Time
  sync_cooldown : Time
deriving DecidableEq, Repr

/-- `FileHandler.__init__`: `last_sync_time = 0`, `sync_cooldown = 5`. -/
def FileHandler.init : FileHandler :=
  { last_sync_time := 0, sync_cooldown := 5 }

/-- `self.ignored_extensions` (line 126). -/
def ignored_extensions : List String :=
  [".tmp", ".temp", ".swp", ".~", ".crdownload", ".part"]

/-- Python `path.endswith(suffix)`: case-sensitive exact suffix match on the
character sequence. -/
def pyEndswith (path suffix : String) : Bool :=
  suffix.data.isSuffixOf path.data

/-- `FileHandler.should_ignore` (lines 128-134): true iff the path ends with
one of the ignored extensions. -/
def should_ignore (path : String) : Bool :=
  ignored_extensions.any (fun ext => pyEndswith path ext)

/-- Observable result of one handler/gate invocation: the handler state after
the call, the path handed to `trigger_sync` (`none` when the handler returned
before calling it), whether `sync_to_gdrive` ran, and the subprocesses
spawned. -/
structure HandlerResult where
  state : FileHandler
  gatePath : Option String
  synced : Bool
  procs : List Proc
deriving DecidableEq, Repr

/-- `FileHandler.trigger_sync` (lines 136-152): the debounce gate. If
`current_time - last_sync_time < sync_cooldown` it returns with the state
unchanged and no sync; otherwise it sets `last_sync_time = current_time` and
runs `sync_to_gdrive()`. -/
def trigger_sync (h : FileHandler) (event_path : String) (current_time : Time)
    (env : SyncEnv) : HandlerResult :=
  if current_time - h.last_sync_time < h.sync_cooldown then
    { state := h, gatePath := some event_path, synced := false, procs := [] }
  else
    let outcome := sync_to_gdrive env
    { state := { h with last_sync_time := current_time },
      gatePath := some event_path, synced := true, procs := outcome.procs }

/-- `FileHandler.on_modified` (lines 154-159). -/
def on_modified (h : FileHandler) (src_path : String) (now : Time)
    (env : SyncEnv) : HandlerResult :=
  if should_ignore src_path then
    { state := h, gatePath := none, synced := false, procs := [] }
  else
    trigger_sync h src_path now env

/-- `FileHandler.on_created` (lines 161-166). -/
def on_created (h : FileHandler) (src_path : String) (now : Time)
    (env : SyncEnv) : HandlerResult :=
  if should_ignore src_path then
    { state := h, gatePath := none, synced := false, procs := [] }
  else
    trigger_sync h src_path now env

/-- `FileHandler.on_deleted` (lines 168-173). -/
def on_deleted (h : FileHandler) (src_path : String) (now : Time)
    (env : SyncEnv) : HandlerResult :=
  if should_ignore src_path then
    { state := h, gatePath := none, synced := false, procs := [] }
  else
    trigger_sync h src_path now env

/-- `FileHandler.on_moved` (lines 175-180): the ignore check uses
`event.src_path`, the trigger uses `event.dest_path`. -/
def on_moved (h : FileHandler) (src_path dest_path : String) (now : Time)
    (env : SyncEnv) : HandlerResult :=
  if should_ignore src_path then
    { state := h, gatePath := none, synced := false, procs := [] }
  else
    trigger_sync h dest_path now env

/-- Deliver a sequence of qualifying (non-ignored) events, each a
`(timestamp, path)` pair, through the debounce gate in order; returns the
final handler state and the number of `sync_to_gdrive` invocations. -/
def runEvents (h : FileHandler) (events : List (Time × String))
    (env : SyncEnv) : FileHandler × Nat :=
  match events with
  | [] => (h, 0)
  | (t, p) :: rest =>
    let r := trigger_sync h p t env
    let tail := runEvents r.state rest env
    (tail.1, (if r.synced then 1 else 0) + tail.2)

/-- The two required configuration values (lines 29-33):
`source_path = os.path.expanduser(os.environ.get('SOURCE_PATH', ''))` and
`destination_path = os.environ.get('DESTINATION_PATH')` (which may be
absent). -/
structure Config where
  source_path : String
  destination_path : Option String
deriving DecidableEq, Repr

/-- The module-level check `if not source_path or not destination_path`
(line 35): a Python string is falsy iff empty, `None` is falsy. -/
def configMissing (cfg : Config) : Bool :=
  cfg.source_path = "" || cfg.destination_path.getD "" = ""

/-- Observable top-level startup actions. -/
inductive StartupAction
  | exited (code : Nat)
  | spawned (p : Proc)
  | watchScheduled
deriving DecidableEq, Repr

/-- The startup path (lines 35-37 and 207-218): if a configuration value is
missing the process calls `exit(1)`; otherwise `__main__` runs one
unconditional `sync_to_gdrive()` and then `watch_directory()` registers the
recursive watch. -/
def startupTrace (cfg : Config) (env : SyncEnv) : List StartupAction :=
  if configMissing cfg then
    [StartupAction.exited 1]
  else
    ((sync_to_gdrive env).procs.map StartupAction.spawned)
      ++ [StartupAction.watchScheduled]

/-- What `__main__` has produced by the time watching begins: the subprocesses
spawned by the initial sync (line 214), and the `FileHandler` instance freshly
constructed by `watch_directory()` (line 186). -/
structure MainStart where
  initialProcs : List Proc
  handler : FileHandler
deriving DecidableEq, Repr

/-- Lines 207-218: the initial `sync_to_gdrive()` call is made directly, not
through any `FileHandler`; the handler that enters the watch loop is a fresh
`FileHandler()`. -/
def mainStart (env : SyncEnv) : MainStart :=
  { initialProcs := (sync_to_gdrive env).procs, handler := FileHandler.init }

/-! ### Helper lemmas -/

/-- The gate never changes the cooldown field. -/
theorem trigger_sync_cooldown (h : FileHandler) (p : String) (t : Time)
    (env : SyncEnv) :
    (trigger_sync h p t env).state.sync_cooldown = h.sync_cooldown := by
  unfold trigger_sync
  split <;> rfl

/-- Running any event sequence never changes the cooldown field. -/
theorem runEvents_cooldown (events : List (Time × String)) (h : FileHandler)
    (env : SyncEnv) :
    (runEvents h events env).1.sync_cooldown = h.sync_cooldown := by
  induction events generalizing h with
  | nil => rfl
  | cons e rest ih =>
    obtain ⟨t, p⟩ := e
    simp only [runEvents]
    rw [ih]
    exact trigger_sync_cooldown h p t env

/-- With a nonnegative cooldown, one gate call never decreases
`last_sync_time`. -/
theorem trigger_sync_last_mono (h : FileHandler) (p : String) (t : Time)
    (env : SyncEnv) (hc : 0 ≤ h.sync_cooldown) :
    h.last_sync_time ≤ (trigger_sync h p t env).state.last_sync_time := by
  unfold trigger_sync
  split
  · exact le_refl _
  · next hlt =>
      push_neg at hlt
      simp only
      linarith

/-- If every event time stays below `T + c`, a state whose `last_sync_time`
is at least `T` suppresses the whole sequence. -/
theorem runEvents_suppressed (events : List (Time × String)) (h : FileHandler)
    (env : SyncEnv) (T c : Time) (hcool : h.sync_cooldown = c)
    (hlast : T ≤ h.last_sync_time)
    (hwin : ∀ e ∈ events, e.1 < T + c) :
    runEvents h events env = (h, 0) := by
  induction events with
  | nil => rfl
  | cons e rest ih =>
    obtain ⟨t, p⟩ := e
    have ht : t < T + c := hwin (t, p) (List.mem_cons_self _ _)
    have hsupp : t - h.last_sync_time < h.sync_cooldown := by
      rw [hcool]; linarith
    simp only [runEvents, trigger_sync, if_pos hsupp]
    rw [ih fun e he => hwin e (List.mem_cons_of_mem _ he)]
    simp

/-- Running a concatenated event sequence is running the two halves in
order. -/
theorem runEvents_append (l1 l2 : List (Time × String)) (h : FileHandler)
    (env : SyncEnv) :
    runEvents h (l1 ++ l2) env =
      ((runEvents (runEvents h l1 env).1 l2 env).1,
       (runEvents h l1 env).2 + (runEvents (runEvents h l1 env).1 l2 env).2) := by
  induction l1 generalizing h with
  | nil => simp [runEvents]
  | cons e rest ih =>
    obtain ⟨t, p⟩ := e
    simp [runEvents, ih, Nat.add_assoc]

/-! ### Claims -/

/-- C1: the debounce gate with cooldown 5: a call at `now` with
`now - last_sync_time < 5` does not sync and leaves the state unchanged;
otherwise it syncs and sets `last_sync_time = now`. After a trigger at `t0`,
an event at `t0 + 5 - eps` (`eps > 0`) is suppressed and one at `t0 + 5 + eps`
triggers. -/
theorem c1_debounce_gate (h : FileHandler) (now t0 eps : Time) (p : String)
    (env : SyncEnv) (hcool : h.sync_cooldown = 5) (heps : 0 < eps) :
    (now - h.last_sync_time < 5 →
      (trigger_sync h p now env).synced = false ∧
      (trigger_sync h p now env).state = h) ∧
    (¬ now - h.last_sync_time < 5 →
      (trigger_sync h p now env).synced = true ∧
      (trigger_sync h p now env).state.last_sync_time = now) ∧
    (trigger_sync ⟨t0, 5⟩ p (t0 + 5 - eps) env).synced = false ∧
    (trigger_sync ⟨t0, 5⟩ p (t0 + 5 + eps) env).synced = true := by
  refine ⟨fun hlt => ?_, fun hge => ?_, ?_, ?_⟩
  · rw [trigger_sync, if_pos (by rw [hcool]; exact hlt)]
    exact ⟨rfl, rfl⟩
  · rw [trigger_sync, if_neg (by rw [hcool]; exact hge)]
    exact ⟨rfl, rfl⟩
  · rw [trigger_sync, if_pos (by simp only; linarith)]
  · rw [trigger_sync, if_neg (by simp only; push_neg; linarith)]

/-- Witness for C1 at `h = FileHandler.init`, `now = 7`, `t0 = 0`,
`eps = 1`. -/
theorem c1_debounce_gate_witness :
    FileHandler.init.sync_cooldown = 5 ∧ (0:Time) < 1 ∧
    ((7 - FileHandler.init.last_sync_time < 5 →
      (trigger_sync FileHandler.init "a" 7 ⟨true, 0, 0⟩).synced = false ∧
      (trigger_sync FileHandler.init "a" 7 ⟨true, 0, 0⟩).state
        = FileHandler.init) ∧
    (¬ (7:Time) - FileHandler.init.last_sync_time < 5 →
      (trigger_sync FileHandler.init "a" 7 ⟨true, 0, 0⟩).synced = true ∧
      (trigger_sync FileHandler.init "a" 7 ⟨true, 0, 0⟩).state.last_sync_time
        = 7) ∧
    (trigger_sync ⟨0, 5⟩ "a" (0 + 5 - 1) ⟨true, 0, 0⟩).synced = false ∧
    (trigger_sync ⟨0, 5⟩ "a" (0 + 5 + 1) ⟨true, 0, 0⟩).synced = true) :=
  ⟨rfl, by norm_num,
    c1_debounce_gate FileHandler.init 7 0 1 "a" ⟨true, 0, 0⟩ rfl (by norm_num)⟩

/-- C2: any sequence of qualifying events whose timestamps all lie in one
cooldown-length window `[T, T + c)` produces at most one `sync_to_gdrive`
invocation, whatever paths the events carry and whatever state the (single,
global) gate starts in. -/
theorem c2_single_window (h : FileHandler) (env : SyncEnv) (T c : Time)
    (events : List (Time × String)) (hcool : h.sync_cooldown = c)
    (hwin : ∀ e ∈ events, T ≤ e.1 ∧ e.1 < T + c) :
    (runEvents h events env).2 ≤ 1 := by
  induction events generalizing h with
  | nil => simp [runEvents]
  | cons e rest ih =>
    obtain ⟨t, p⟩ := e
    have hhead := hwin (t, p) (List.mem_cons_self _ _)
    have htail : ∀ e ∈ rest, T ≤ e.1 ∧ e.1 < T + c :=
      fun e he => hwin e (List.mem_cons_of_mem _ he)
    by_cases hlt : t - h.last_sync_time < h.sync_cooldown
    · simp only [runEvents, trigger_sync, if_pos hlt]
      simpa using ih h hcool htail
    · simp only [runEvents, trigger_sync, if_neg hlt]
      have hzero := runEvents_suppressed rest
        ({ h with last_sync_time := t }) env T c (by simpa using hcool)
        hhead.1 (fun e he => (htail e he).2)
      simp [hzero]

/-- Witness for C2: three qualifying events at t = 10, 12, 14 in the window
`[10, 15)` starting from the initial state. -/
theorem c2_single_window_witness :
    FileHandler.init.sync_cooldown = 5 ∧
    (∀ e ∈ [((10:Time), "a"), (12, "b"), (14, "c")],
      (10:Time) ≤ e.1 ∧ e.1 < 10 + 5) ∧
    (runEvents FileHandler.init [((10:Time), "a"), (12, "b"), (14, "c")]
      ⟨true, 0, 0⟩).2 ≤ 1 :=
  ⟨rfl, by norm_num,
    c2_single_window FileHandler.init ⟨true, 0, 0⟩ 10 5
      [((10:Time), "a"), (12, "b"), (14, "c")] rfl (by norm_num)⟩

/-- C3: when the source exists and the sync subprocess exits 0, the dedupe
subprocess is spawned exactly once and the reported outcome is success,
whatever `dedupe_exit` is. -/
theorem c3_sync_success_runs_dedupe (env : SyncEnv)
    (hsrc : env.source_exists = true) (hexit : env.sync_exit = 0) :
    (sync_to_gdrive env).success = true ∧
    (sync_to_gdrive env).procs.count Proc.dedupe = 1 := by
  rw [sync_to_gdrive, if_neg (by simp [hsrc]), if_pos hexit]
  unfold dedupe_gdrive
  split <;> simp [List.count_cons]

/-- Witness for C3 with a failing dedupe subprocess (`dedupe_exit = 7`). -/
theorem c3_sync_success_runs_dedupe_witness :
    (SyncEnv.mk true 0 7).source_exists = true ∧
    (SyncEnv.mk true 0 7).sync_exit = 0 ∧
    ((sync_to_gdrive ⟨true, 0, 7⟩).success = true ∧
     (sync_to_gdrive ⟨true, 0, 7⟩).procs.count Proc.dedupe = 1) :=
  ⟨rfl, rfl, c3_sync_success_runs_dedupe ⟨true, 0, 7⟩ rfl rfl⟩

/-- C4: when the source exists and the sync subprocess exits non-zero, the
dedupe subprocess is never spawned and the outcome is failure. -/
theorem c4_sync_failure_skips_dedupe (env : SyncEnv)
    (hsrc : env.source_exists = true) (hexit : env.sync_exit ≠ 0) :
    (sync_to_gdrive env).success = false ∧
    Proc.dedupe ∉ (sync_to_gdrive env).procs := by
  rw [sync_to_gdrive, if_neg (by simp [hsrc]), if_neg hexit]
  simp

/-- Witness for C4 at `sync_exit = 1`. -/
theorem c4_sync_failure_skips_dedupe_witness :
    (SyncEnv.mk true 1 0).source_exists = true ∧
    (SyncEnv.mk true 1 0).sync_exit ≠ 0 ∧
    ((sync_to_gdrive ⟨true, 1, 0⟩).success = false ∧
     Proc.dedupe ∉ (sync_to_gdrive ⟨true, 1, 0⟩).procs) :=
  ⟨rfl, by decide, c4_sync_failure_skips_dedupe ⟨true, 1, 0⟩ rfl (by decide)⟩

/-- C5: when the source path does not exist, the outcome is failure, the only
log record is the source-missing error, and no subprocess at all is
spawned. -/
theorem c5_source_missing (env : SyncEnv)
    (hsrc : env.source_exists = false) :
    (sync_to_gdrive env).success = false ∧
    (sync_to_gdrive env).procs = [] ∧
    (sync_to_gdrive env).logs = [LogMsg.sourceMissing] := by
  rw [sync_to_gdrive, if_pos hsrc]
  exact ⟨rfl, rfl, rfl⟩

/-- Witness for C5. -/
theorem c5_source_missing_witness :
    (SyncEnv.mk false 0 0).source_exists = false ∧
    ((sync_to_gdrive ⟨false, 0, 0⟩).success = false ∧
     (sync_to_gdrive ⟨false, 0, 0⟩).procs = [] ∧
     (sync_to_gdrive ⟨false, 0, 0⟩).logs = [LogMsg.sourceMissing]) :=
  ⟨rfl, c5_source_missing ⟨false, 0, 0⟩ rfl⟩

/-- C6: a path ending (case-sensitive exact suffix) with an entry of the
ignore set is classified as ignored, and every handler returns before the
debounce gate or the sync executor runs for it: the state is untouched, no
path reaches `trigger_sync`, and no subprocess is spawned. -/
theorem c6_ignored_suffix (h : FileHandler) (p : String) (now : Time)
    (env : SyncEnv)
    (hext : ∃ ext ∈ ignored_extensions, pyEndswith p ext = true) :
    should_ignore p = true ∧
    on_modified h p now env = ⟨h, none, false, []⟩ ∧
    on_created h p now env = ⟨h, none, false, []⟩ ∧
    on_deleted h p now env = ⟨h, none, false, []⟩ ∧
    ∀ d, on_moved h p d now env = ⟨h, none, false, []⟩ := by
  have hig : should_ignore p = true := by
    rw [should_ignore, List.any_eq_true]
    obtain ⟨ext, hm, he⟩ := hext
    exact ⟨ext, hm, he⟩
  refine ⟨hig, ?_, ?_, ?_, fun d => ?_⟩
  · rw [on_modified, if_pos hig]
  · rw [on_created, if_pos hig]
  · rw [on_deleted, if_pos hig]
  · rw [on_moved, if_pos hig]

/-- Witness for C6 at the path "report.crdownload". -/
theorem c6_ignored_suffix_witness :
    (∃ ext ∈ ignored_extensions,
      pyEndswith "report.crdownload" ext = true) ∧
    (should_ignore "report.crdownload" = true ∧
     on_modified ⟨0, 5⟩ "report.crdownload" 9 ⟨true, 0, 0⟩
       = ⟨⟨0, 5⟩, none, false, []⟩ ∧
     on_created ⟨0, 5⟩ "report.crdownload" 9 ⟨true, 0, 0⟩
       = ⟨⟨0, 5⟩, none, false, []⟩ ∧
     on_deleted ⟨0, 5⟩ "report.crdownload" 9 ⟨true, 0, 0⟩
       = ⟨⟨0, 5⟩, none, false, []⟩ ∧
     ∀ d, on_moved ⟨0, 5⟩ "report.crdownload" d 9 ⟨true, 0, 0⟩
       = ⟨⟨0, 5⟩, none, false, []⟩) :=
  ⟨⟨".crdownload", by decide, by decide⟩,
    c6_ignored_suffix ⟨0, 5⟩ "report.crdownload" 9 ⟨true, 0, 0⟩
      ⟨".crdownload", by decide, by decide⟩⟩

/-- C7: if the source path is empty, or the destination identifier is absent
or empty, the startup trace is exactly an exit with code 1: no watch is
registered, no subprocess is spawned, and every exit recorded has non-zero
code. -/
theorem c7_config_missing (cfg : Config) (env : SyncEnv)
    (hmiss : cfg.source_path = "" ∨ cfg.destination_path.getD "" = "") :
    startupTrace cfg env = [StartupAction.exited 1] ∧
    StartupAction.watchScheduled ∉ startupTrace cfg env ∧
    (∀ p, StartupAction.spawned p ∉ startupTrace cfg env) ∧
    ∀ code, StartupAction.exited code ∈ startupTrace cfg env → code ≠ 0 := by
  have hm : configMissing cfg = true := by
    rw [configMissing, Bool.or_eq_true, decide_eq_true_eq, decide_eq_true_eq]
    exact hmiss
  rw [startupTrace, if_pos hm]
  refine ⟨rfl, by simp, fun p => by simp, fun code hc => ?_⟩
  simp only [List.mem_singleton, StartupAction.exited.injEq] at hc
  omega

/-- Witness for C7 with an empty destination identifier. -/
theorem c7_config_missing_witness :
    ((Config.mk "C:/StartMenu" (some "")).source_path = "" ∨
     (Config.mk "C:/StartMenu" (some "")).destination_path.getD "" = "") ∧
    (startupTrace ⟨"C:/StartMenu", some ""⟩ ⟨true, 0, 0⟩
       = [StartupAction.exited 1] ∧
     StartupAction.watchScheduled ∉
       startupTrace ⟨"C:/StartMenu", some ""⟩ ⟨true, 0, 0⟩ ∧
     (∀ p, StartupAction.spawned p ∉
       startupTrace ⟨"C:/StartMenu", some ""⟩ ⟨true, 0, 0⟩) ∧
     ∀ code, StartupAction.exited code ∈
       startupTrace ⟨"C:/StartMenu", some ""⟩ ⟨true, 0, 0⟩ → code ≠ 0) :=
  ⟨Or.inr rfl, c7_config_missing ⟨"C:/StartMenu", some ""⟩ ⟨true, 0, 0⟩
    (Or.inr rfl)⟩

/-- C8: `last_sync_time` is monotonically non-decreasing along every run from
the initial state: each gate call leaves it at least its previous value.
Moreover any single gate call either leaves the state entirely unchanged or
sets `last_sync_time = now` with the cooldown check satisfied. -/
theorem c8_last_sync_time_monotone (env : SyncEnv)
    (events : List (Time × String)) (n : ℕ) :
    (runEvents FileHandler.init (events.take n) env).1.last_sync_time ≤
      (runEvents FileHandler.init (events.take (n + 1)) env).1.last_sync_time ∧
    ∀ (h : FileHandler) (p : String) (now : Time),
      (trigger_sync h p now env).state = h ∨
      ((trigger_sync h p now env).state.last_sync_time = now ∧
        h.sync_cooldown ≤ now - h.last_sync_time) := by
  constructor
  · rcases le_or_lt events.length n with hn | hn
    · rw [List.take_of_length_le hn, List.take_of_length_le (by omega)]
    · rw [List.take_succ, List.getElem?_eq_getElem hn, Option.toList_some,
        runEvents_append]
      simp only [runEvents]
      have hcool : (runEvents FileHandler.init (events.take n) env).1.sync_cooldown
          = 5 := runEvents_cooldown _ _ _
      exact trigger_sync_last_mono _ _ _ _ (by rw [hcool]; norm_num)
  · intro h p now
    by_cases hlt : now - h.last_sync_time < h.sync_cooldown
    · left; rw [trigger_sync, if_pos hlt]
    · right
      rw [trigger_sync, if_neg hlt]
      exact ⟨rfl, by linarith [not_lt.mp hlt]⟩

/-- C9: `on_moved` evaluates the ignore decision on the event's source path
and hands the event's destination path to the gate: an ignored source path
(here `src1`, with arbitrary destination `d1`) never reaches the gate, while a
non-ignored source path (`src2`) reaches the gate with the destination path
`d2`, whatever suffix `d2` has. -/
theorem c9_on_moved_paths (h : FileHandler) (src1 src2 d1 d2 : String)
    (now : Time) (env : SyncEnv)
    (h1 : should_ignore src1 = true) (h2 : should_ignore src2 = false) :
    (on_moved h src1 d1 now env = ⟨h, none, false, []⟩) ∧
    (on_moved h src2 d2 now env).gatePath = some d2 := by
  constructor
  · rw [on_moved, if_pos h1]
  · rw [on_moved, if_neg (by simp [h2])]
    rw [trigger_sync]
    split <;> rfl

/-- Witness for C9: a rename from an ignored source ("a.tmp") to a clean
destination ("a.txt") is dropped; a rename from a clean source ("b.txt") to an
ignored-suffix destination ("b.tmp") reaches the gate carrying "b.tmp". -/
theorem c9_on_moved_paths_witness :
    should_ignore "a.tmp" = true ∧ should_ignore "b.txt" = false ∧
    ((on_moved ⟨0, 5⟩ "a.tmp" "a.txt" 9 ⟨true, 0, 0⟩
        = ⟨⟨0, 5⟩, none, false, []⟩) ∧
     (on_moved ⟨0, 5⟩ "b.txt" "b.tmp" 9 ⟨true, 0, 0⟩).gatePath
        = some "b.tmp") :=
  ⟨by decide, by decide,
    c9_on_moved_paths ⟨0, 5⟩ "a.tmp" "b.txt" "a.txt" "b.tmp" 9 ⟨true, 0, 0⟩
      (by decide) (by decide)⟩

/-- C10: the startup sync bypasses the debounce gate and leaves the debounce
state untouched: the handler entering the watch loop is the fresh initial one
with `last_sync_time = 0` whatever the initial sync did, the initial sync
spawns the sync subprocess whenever the source exists (no time check at all),
and the first qualifying event, at time `t`, triggers exactly when
`t ≥ 5 = cooldown`, gated against 0 rather than the startup sync's time. -/
theorem c10_initial_sync_bypasses_gate (env : SyncEnv) (t : Time)
    (p : String) :
    FileHandler.init.last_sync_time = 0 ∧
    (mainStart env).handler = FileHandler.init ∧
    (Proc.sync ∈ (mainStart env).initialProcs ↔ env.source_exists = true) ∧
    ((trigger_sync (mainStart env).handler p t env).synced = true ↔ 5 ≤ t) := by
  refine ⟨rfl, rfl, ?_, ?_⟩
  · cases hs : env.source_exists with
    | false => simp [mainStart, sync_to_gdrive, hs]
    | true =>
      simp only [mainStart, sync_to_gdrive, hs]
      rw [if_neg (by simp)]
      split <;> simp [hs]
  · rw [mainStart]
    simp only
    rw [trigger_sync]
    have : FileHandler.init.last_sync_time = 0 := rfl
    split
    · next hlt =>
        simp only [FileHandler.init] at hlt
        constructor
        · intro hfalse; exact absurd hfalse (by simp)
        · intro hge; exfalso; linarith
    · next hge =>
        simp only [FileHandler.init] at hge
        push_neg at hge
        constructor
        · intro _; linarith
        · intro _; rfl

end StartmenuSync
